import Mathlib

/-!
# Verification of the Ekos scheduler execution core (`scheduler.cpp`)

Shallow embedding of the scheduling and execution core of the KStars Ekos
scheduler (`src/unnamed/part_001`, `Scheduler` class).  C++ enums are embedded
as `Nat` constants (a C++ enum is an integer type and the source compares and
casts them as integers, e.g. `SCHEDJOB_ERROR <= s` and
`static_cast<Ekos::CaptureState>(status.toInt())`).  The mutable
`Scheduler`/`SchedulerModuleState` pair becomes an explicit `SchedState`
record threaded through each translated member function; fire-and-forget
subsystem commands (DBus calls), log lines and signals are accumulated in a
`Command` trace.  Debug-level (`qCDebug`) logging is omitted except in the
final fallback branch of `findNextJob`, which one claim is about.
-/

/- ---------------------------------------------------------------------------
Enum constants.

`SchedulerJobStatus`, `SchedulerJobStage`, `CompletionCondition` live in
`schedulerjob.h`, `SchedulerTimerState` and the module state in
`schedulermodulestate.h`, and the Ekos subsystem states in `ekos.h`; none of
those headers are in `src/`.  The numeric order of `SchedulerJobStatus` is
modelled from the spec lifecycle (§3: `IDLE → EVALUATION → SCHEDULED/INVALID/
ABORTED → BUSY → COMPLETE/ERROR/ABORTED`) together with the two order
comparisons the source performs on it: `SCHEDJOB_ERROR <= s` selects exactly
the finished states (comment "finished_or_aborted") and
`getState() <= SCHEDJOB_BUSY` selects exactly the not-yet-processed states
(`Scheduler::stop`).  For all other enums only distinctness of the listed
values matters to the source code under verification.
--------------------------------------------------------------------------- -/

def SCHEDJOB_IDLE : Nat := 0
def SCHEDJOB_EVALUATION : Nat := 1
def SCHEDJOB_SCHEDULED : Nat := 2
def SCHEDJOB_BUSY : Nat := 3
def SCHEDJOB_ERROR : Nat := 4
def SCHEDJOB_ABORTED : Nat := 5
def SCHEDJOB_INVALID : Nat := 6
def SCHEDJOB_COMPLETE : Nat := 7

def SCHEDSTAGE_IDLE : Nat := 0
def SCHEDSTAGE_SLEWING : Nat := 1
def SCHEDSTAGE_SLEW_COMPLETE : Nat := 2
def SCHEDSTAGE_FOCUSING : Nat := 3
def SCHEDSTAGE_FOCUS_COMPLETE : Nat := 4
def SCHEDSTAGE_ALIGNING : Nat := 5
def SCHEDSTAGE_ALIGN_COMPLETE : Nat := 6
def SCHEDSTAGE_RESLEWING : Nat := 7
def SCHEDSTAGE_RESLEWING_COMPLETE : Nat := 8
def SCHEDSTAGE_POSTALIGN_FOCUSING : Nat := 9
def SCHEDSTAGE_POSTALIGN_FOCUSING_COMPLETE : Nat := 10
def SCHEDSTAGE_GUIDING : Nat := 11
def SCHEDSTAGE_GUIDING_COMPLETE : Nat := 12
def SCHEDSTAGE_CAPTURING : Nat := 13

def FINISH_SEQUENCE : Nat := 0
def FINISH_REPEAT : Nat := 1
def FINISH_LOOP : Nat := 2
def FINISH_AT : Nat := 3

def RUN_WAKEUP : Nat := 0
def RUN_SCHEDULER : Nat := 1
def RUN_JOBCHECK : Nat := 2
def RUN_SHUTDOWN : Nat := 3
def RUN_NOTHING : Nat := 4

def SCHEDULER_IDLE : Nat := 0
def SCHEDULER_STARTUP : Nat := 1
def SCHEDULER_RUNNING : Nat := 2
def SCHEDULER_PAUSED : Nat := 3
def SCHEDULER_SHUTDOWN : Nat := 4
def SCHEDULER_ABORTED : Nat := 5
def SCHEDULER_LOADING : Nat := 6

def CAPTURE_IDLE : Nat := 0
def CAPTURE_PROGRESS : Nat := 1
def CAPTURE_ABORTED : Nat := 6
def CAPTURE_IMAGE_RECEIVED : Nat := 8
def CAPTURE_COMPLETE : Nat := 13

def GUIDE_IDLE : Nat := 0
def GUIDE_ABORTED : Nat := 1
def GUIDE_CONNECTED : Nat := 2
def GUIDE_DISCONNECTED : Nat := 3
def GUIDE_CALIBRATION_ERROR : Nat := 4
def GUIDE_GUIDING : Nat := 12
def GUIDE_DITHERING_ERROR : Nat := 14

def ALIGN_IDLE : Nat := 0

/-- `SchedulerJob::StepPipeline` bit for tracking (slew). -/
def USE_TRACK : Nat := 1
/-- `SchedulerJob::StepPipeline` bit for focusing. -/
def USE_FOCUS : Nat := 2
/-- `SchedulerJob::StepPipeline` bit for alignment. -/
def USE_ALIGN : Nat := 4
/-- `SchedulerJob::StepPipeline` bit for guiding. -/
def USE_GUIDE : Nat := 8

/-- Modelled from the spec: the per-stage inactivity timeout constant for the
capture stage (§4.3 / §5: "Timeouts are wall-clock-based per stage (separate
constants for align/capture/focus/guide)").  The constant lives in
`scheduler.h`, which is not in `src/`; only the comparison against the
elapsed time matters to the claims, not the value. -/
def CAPTURE_INACTIVITY_TIMEOUT : Int := 180000

/- ---------------------------------------------------------------------------
Data model: one scheduler job (the fields of `SchedulerJob` that the
translated member functions of `Scheduler` read or write).
--------------------------------------------------------------------------- -/

/-- One observation job of the scheduler queue (`SchedulerJob`,
`schedulerjob.h`/`.cpp`, headers not in `src/`; the fields mirror the
accessors used by `scheduler.cpp`).  `startupTime`/`completionTime` are
seconds-since-epoch, `none` standing for an invalid `QDateTime` (an invalid
`QDateTime` compares below every valid one and `secsTo` involving it yields
0).  `canCount` caches `Scheduler::canCountCaptures(job)`: that function
loads the job's sequence file through the external `SequenceSource`
collaborator and reports whether captured frames will be stored client-side
so they can be recounted later; the file contents being external input, the
verdict is carried as a per-job oracle field. -/
structure SchedulerJob where
  name : String
  targetRa : Int
  targetDec : Int
  sequenceFile : String
  state : Nat
  stage : Nat
  completionCondition : Nat
  repeatsRemaining : Int
  repeatsRequired : Int
  completedIterations : Int
  completedCount : Int
  stepPipeline : Nat
  lightFramesRequired : Bool
  inSequenceFocus : Bool
  startupTime : Option Int
  completionTime : Option Int
  stopReason : String
  canCount : Bool
deriving DecidableEq, Repr

instance : Inhabited SchedulerJob where
  default :=
    { name := "", targetRa := 0, targetDec := 0, sequenceFile := ""
      state := SCHEDJOB_IDLE, stage := SCHEDSTAGE_IDLE
      completionCondition := FINISH_SEQUENCE
      repeatsRemaining := 0, repeatsRequired := 0
      completedIterations := 0, completedCount := 0
      stepPipeline := 0, lightFramesRequired := true
      inSequenceFocus := false
      startupTime := none, completionTime := none
      stopReason := "", canCount := true }

/-- Does the job's step pipeline bitmask contain the given step bit
(`getStepPipeline() & SchedulerJob::USE_...`)? -/
def hasStep (j : SchedulerJob) (bit : Nat) : Bool :=
  j.stepPipeline &&& bit != 0

/-- Modelled from the spec: `SchedulerJob::isDuplicateOf`
(`schedulerjob.cpp`, not in `src/`).  Per §3 and the glossary, duplicate
jobs are "jobs sharing identical target+sequence, tracked jointly for
repeat/progress bookkeeping".  Object identity of the C++ pointer
comparison is handled by the callers via the job's index in the list. -/
def isDuplicateOf (j other : SchedulerJob) : Bool :=
  j.targetRa == other.targetRa && j.targetDec == other.targetDec &&
    j.sequenceFile == other.sequenceFile

/- ---------------------------------------------------------------------------
Command / event trace: asynchronous subsystem commands (fire-and-forget DBus
calls of `SchedulerProcess`), user-visible log lines (`appendLogText`) and
signals emitted while the translated functions execute.
--------------------------------------------------------------------------- -/

/-- One externally visible action of the scheduler core. -/
inductive Command where
  | startSlew : Command
  | startFocusing : Command
  | startAstrometry : Command
  | startGuiding (resetCalibration : Bool) : Command
  | startCapture (restart : Bool) : Command
  | stopGuiding : Command
  | abortMount : Command
  | abortFocus : Command
  | abortAlign : Command
  | abortCapture : Command
  | setCaptureTargetName (name : String) : Command
  | setAlignTargetCoords : Command
  | appendLog (msg : String) : Command
  | debugLog (msg : String) : Command
  | jobStartedSignal (name : String) : Command
  | jobEndedSignal (name reason : String) : Command
deriving DecidableEq, Repr

/- ---------------------------------------------------------------------------
Scheduler state: the fields of `Scheduler` + `SchedulerModuleState` (plus the
error-handling UI options) read or written by the translated functions.
`activeJob` is the index of the active job in `jobs` (`none` = `nullptr`).
`shouldSleep` is an oracle for `shouldSchedulerSleep(job)` (a wall-clock /
weather / preemptive-shutdown decision on external collaborators),
`guidingStatus` for `process()->getGuidingStatus()`, and
`greedyScheduledJob` for `m_GreedyScheduler->getScheduledJob()` (the greedy
scheduler lives in `greedyscheduler.cpp`, not in `src/`). -/
structure SchedState where
  jobs : List SchedulerJob
  activeJob : Option Nat
  schedulerState : Nat
  timerState : Nat
  timerInterval : Int
  iterationSetup : Bool
  timerArmed : Bool
  alignFailureCount : Nat
  guideFailureCount : Nat
  focusFailureCount : Nat
  captureFailureCount : Nat
  maxFailureAttempts : Nat
  captureBatch : Nat
  autofocusCompleted : Bool
  rememberJobProgress : Bool
  forceAlignmentBeforeJob : Bool
  errorHandlingDontRestart : Bool
  errorHandlingRestartImmediately : Bool
  errorHandlingRescheduleErrors : Bool
  errorHandlingDelay : Int
  updatePeriodMs : Int
  now : Int
  shouldSleep : Bool
  guidingStatus : Nat
  greedyScheduledJob : Option Nat
  preemptiveShutdown : Bool
  currentOperationStart : Int
  commands : List Command
deriving DecidableEq, Repr

/-- Append an externally visible action to the trace. -/
def emit (s : SchedState) (c : Command) : SchedState :=
  { s with commands := s.commands ++ [c] }

/-- Read job `i` of the queue (`nullptr`-free total version: out-of-range
reads yield the default job; the translated code only indexes jobs that
exist). -/
def getJob (s : SchedState) (i : Nat) : SchedulerJob :=
  s.jobs.getD i default

/-- Replace job `i` of the queue. -/
def setJob (s : SchedState) (i : Nat) (j : SchedulerJob) : SchedState :=
  { s with jobs := s.jobs.set i j }

/-- `job->setState(st)` on job `i`. -/
def setJobState (s : SchedState) (i : Nat) (st : Nat) : SchedState :=
  setJob s i { getJob s i with state := st }

/-- Modelled from the spec: `SchedulerModuleState::setupNextIteration`
(`schedulermodulestate.cpp`, not in `src/`).  Per §4.4, a phase handler
"must set the next phase and the delay before the loop is invoked again";
recording both marks the iteration as set up. -/
def setupNextIterationMs (s : SchedState) (st : Nat) (ms : Int) : SchedState :=
  { s with timerState := st, timerInterval := ms, iterationSetup := true }

/-- `setupNextIteration` with the default polling period. -/
def setupNextIteration (s : SchedState) (st : Nat) : SchedState :=
  setupNextIterationMs s st s.updatePeriodMs

/-- Modelled from the spec: `SchedulerModuleState::setTimerInterval`
(not in `src/`).  Recording the delay of the next wake-up counts as setting
up the iteration: §4.4 requires handlers to set the delay and stipulates
that the NONE phase "stops the loop", i.e. its `-1` interval must survive
to the caller rather than be replaced by the defensive default. -/
def setTimerInterval (s : SchedState) (ms : Int) : SchedState :=
  { s with timerInterval := ms, iterationSetup := true }

/-- Modelled from the spec: `SchedulerModuleState::increaseAlignFailureCount`
(not in `src/`).  §4.3: on an inactivity timeout the state machine
"increment[s] a per-subsystem failure counter and re-issue[s] the start
command; if the failure counter exceeds a configured maximum, mark the job
ABORTED"; the return value reports whether the incremented counter is still
within the configured maximum. -/
def increaseAlignFailureCount (s : SchedState) : SchedState × Bool :=
  let c := s.alignFailureCount + 1
  ({ s with alignFailureCount := c }, decide (c ≤ s.maxFailureAttempts))

/-- Modelled from the spec: `SchedulerModuleState::increaseGuideFailureCount`
(not in `src/`), as for the align counter. -/
def increaseGuideFailureCount (s : SchedState) : SchedState × Bool :=
  let c := s.guideFailureCount + 1
  ({ s with guideFailureCount := c }, decide (c ≤ s.maxFailureAttempts))

/-- Modelled from the spec: `SchedulerModuleState::increaseFocusFailureCount`
(not in `src/`), as for the align counter. -/
def increaseFocusFailureCount (s : SchedState) : SchedState × Bool :=
  let c := s.focusFailureCount + 1
  ({ s with focusFailureCount := c }, decide (c ≤ s.maxFailureAttempts))

/-- Modelled from the spec: `SchedulerModuleState::increaseCaptureFailureCount`
(not in `src/`), as for the align counter. -/
def increaseCaptureFailureCount (s : SchedState) : SchedState × Bool :=
  let c := s.captureFailureCount + 1
  ({ s with captureFailureCount := c }, decide (c ≤ s.maxFailureAttempts))

/-- `moduleState()->startCurrentOperationTimer()`: re-arm the per-stage
inactivity stopwatch. -/
def startCurrentOperationTimer (s : SchedState) : SchedState :=
  { s with currentOperationStart := s.now }

/-- `now < t` on a `QDateTime`-like optional time: an invalid (absent) time
compares below every valid one. -/
def ltOptTime (now : Int) (t : Option Int) : Bool :=
  match t with
  | some v => decide (now < v)
  | none => false

/-- `now.secsTo(t)` on a `QDateTime`-like optional time: `secsTo` involving
an invalid time yields 0. -/
def secsToOpt (now : Int) (t : Option Int) : Int :=
  match t with
  | some v => v - now
  | none => 0

/- ---------------------------------------------------------------------------
Translated member functions of `Scheduler` (`src/unnamed/part_001`).
--------------------------------------------------------------------------- -/

/-- `Scheduler::setPaused` (UI button state aside): schedule no further
iteration and log. -/
def setPaused (s : SchedState) : SchedState :=
  emit (setupNextIteration s RUN_NOTHING) (.appendLog "Scheduler paused.")

/-- `Scheduler::updateJobStage` (UI rendering aside): set the active job's
stage.  The source dereferences `activeJob()` unconditionally; callers
guarantee it is set, and the embedding is a no-op otherwise. -/
def updateJobStage (s : SchedState) (stage : Nat) : SchedState :=
  match s.activeJob with
  | none => s
  | some i => setJob s i { getJob s i with stage := stage }

/-- `Scheduler::stopCurrentJobAction`: abort the subsystem owning the active
job's current stage, reset the stage to IDLE, and stop guiding. -/
def stopCurrentJobAction (s : SchedState) : SchedState :=
  let s1 :=
    match s.activeJob with
    | none => s
    | some i =>
      let st := (getJob s i).stage
      let s2 :=
        if st == SCHEDSTAGE_SLEWING then emit s .abortMount
        else if st == SCHEDSTAGE_FOCUSING then emit s .abortFocus
        else if st == SCHEDSTAGE_ALIGNING then emit s .abortAlign
        else if st == SCHEDSTAGE_CAPTURING then emit s .abortCapture
        else s
      updateJobStage s2 SCHEDSTAGE_IDLE
  emit s1 .stopGuiding

/-- The `foreach` loop of `Scheduler::findNextJob` that marks the active job
and all its duplicates IDLE for re-evaluation: `act` is the active job, `i`
its index, `k` the index of the list head. -/
def markDupsIdle (act : SchedulerJob) (i : Nat) : Nat → List SchedulerJob → List SchedulerJob
  | _, [] => []
  | k, j :: rest =>
    (if k == i || isDuplicateOf j act then { j with state := SCHEDJOB_IDLE } else j) ::
      markDupsIdle act i (k + 1) rest

/-- Modelled from the spec: `GreedyScheduler::scheduleJobs`
(`greedyscheduler.cpp`, not in `src/`) recomputes every job's projected
schedule and status (§4.2: "mutates each job's cached schedule fields and
status; does not start anything").  Only the effect the claims depend on is
modelled: a REPEAT job whose repeat budget is exhausted has no work left and
is retired as COMPLETE (§4.2 step 1 treats such a job as terminal; §8
requires a REPEAT(N) job to reach COMPLETE after its N batches).  Window
computation and the selection result (`greedyScheduledJob`, an oracle field
here) are left untouched. -/
def greedyScheduleJobs (s : SchedState) : SchedState :=
  { s with jobs := s.jobs.map fun j =>
      if j.completionCondition == FINISH_REPEAT && j.repeatsRemaining ≤ 0 then
        { j with state := SCHEDJOB_COMPLETE }
      else j }

/-- `Scheduler::selectActiveJob` (`src/unnamed/part_001` lines 2089-2134). -/
def selectActiveJob (s : SchedState) : SchedState :=
  if s.jobs.isEmpty ||
      s.jobs.all (fun j => j.state != SCHEDJOB_SCHEDULED && j.state != SCHEDJOB_ABORTED) then
    let s1 := emit s (.appendLog "No jobs left in the scheduler queue after evaluating.")
    { s1 with activeJob := none }
  else if s.jobs.all (fun j => decide (SCHEDJOB_ERROR ≤ j.state) || j.state == SCHEDJOB_ABORTED)
      && !s.errorHandlingDontRestart then
    let s1 := emit s
      (.appendLog "Only aborted jobs left in the scheduler queue after evaluating, rescheduling those.")
    { s1 with jobs := s1.jobs.map fun j =>
        if j.state == SCHEDJOB_ABORTED then { j with state := SCHEDJOB_EVALUATION } else j }
  else
    match s.greedyScheduledJob with
    | none =>
      let s1 := emit s (.appendLog "No jobs scheduled.")
      { s1 with activeJob := none }
    | some i => { s with activeJob := some i }

/-- `Scheduler::evaluateJobs`: clear per-job caches (no cached schedule
fields are modelled), re-run the greedy scheduler over the queue and, unless
`evaluateOnly`, select the job to run.  The captured-frames refresh
(`updateCompletedJobsCount`) queries the external capture subsystem and only
feeds the unmodelled schedule-estimation fields. -/
def evaluateJobs (s : SchedState) (evaluateOnly : Bool) : SchedState :=
  if s.jobs.isEmpty then s
  else
    let s1 := greedyScheduleJobs s
    if !evaluateOnly && s1.schedulerState == SCHEDULER_RUNNING then selectActiveJob s1 else s1

/-- `Scheduler::executeJob` (lines 2158-2211): make job `i` the active job
and start executing it now unless it is already busy, the scheduler should
sleep until its startup time, or its startup time is still in the future.
Returns the C++ `bool` result alongside the state. -/
def executeJob (s : SchedState) (i : Nat) : SchedState × Bool :=
  if s.activeJob == some i && (getJob s i).state == SCHEDJOB_BUSY then (s, false)
  else
    let s1 := { s with activeJob := some i }
    if s1.shouldSleep then (s1, false)
    else if decide (0 < secsToOpt s1.now (getJob s1 i).startupTime) then (s1, false)
    else
      let s2 :=
        if (getJob s1 i).completionCondition == FINISH_SEQUENCE && s1.rememberJobProgress then
          emit s1 (.setCaptureTargetName (getJob s1 i).name)
        else s1
      let s3 := { s2 with autofocusCompleted := false }
      let s4 := setJobState s3 i SCHEDJOB_BUSY
      let s5 := setupNextIteration s4 RUN_JOBCHECK
      (s5, true)

/-- The `SCHEDJOB_ERROR` / `SCHEDJOB_ABORTED` branch of
`Scheduler::findNextJob`: terminate the job, and either schedule an
immediate restart (per the error-handling strategy) or hand back to the
scheduler for re-evaluation. -/
def findNextJobErrorAborted (s : SchedState) (i : Nat) : SchedState :=
  let job := getJob s i
  let s1 := emit s (.jobEndedSignal job.name job.stopReason)
  let s2 := { s1 with captureBatch := 0 }
  let s3 := emit s2 .stopGuiding
  let s4 :=
    if job.state == SCHEDJOB_ERROR then
      emit s3 (.appendLog "Job is terminated due to errors.")
    else emit s3 (.appendLog "Job is aborted.")
  let s5 := updateJobStage s4 SCHEDSTAGE_IDLE
  if s5.errorHandlingRestartImmediately &&
      (job.state == SCHEDJOB_ABORTED ||
        (job.state == SCHEDJOB_ERROR && s5.errorHandlingRescheduleErrors)) then
    let s6 := setJobState s5 i SCHEDJOB_SCHEDULED
    let s7 := emit s6 (.appendLog "Waiting to restart job.")
    setupNextIterationMs s7 RUN_WAKEUP (s7.errorHandlingDelay * 1000)
  else
    let s6 := { s5 with activeJob := none }
    setupNextIteration s6 RUN_SCHEDULER

/-- The `SCHEDJOB_IDLE` branch of `Scheduler::findNextJob`: the job's
constraints are no longer valid, start re-evaluation. -/
def findNextJobIdle (s : SchedState) (i : Nat) : SchedState :=
  let job := getJob s i
  let s1 := emit s (.jobEndedSignal job.name job.stopReason)
  let s2 := { s1 with activeJob := none }
  setupNextIteration s2 RUN_SCHEDULER

/-- The `FINISH_SEQUENCE` branch of `Scheduler::findNextJob`: the job is
complete; under remember-job-progress mark it and all its duplicates IDLE
for re-evaluation, and mark it COMPLETE now when its captures cannot be
recounted later. -/
def findNextJobSequence (s : SchedState) (i : Nat) : SchedState :=
  let job := getJob s i
  let s1 := emit s (.jobEndedSignal job.name job.stopReason)
  let s2 :=
    if s1.rememberJobProgress then { s1 with jobs := markDupsIdle job i 0 s1.jobs }
    else s1
  let s3 := { s2 with captureBatch := 0 }
  let s4 := emit s3 .stopGuiding
  let s5 := emit s4 (.appendLog "Job is complete.")
  let s6 := updateJobStage s5 SCHEDSTAGE_IDLE
  let s7 := if !(getJob s6 i).canCount then setJobState s6 i SCHEDJOB_COMPLETE else s6
  let s8 := { s7 with activeJob := none }
  setupNextIteration s8 RUN_SCHEDULER

/-- The `FINISH_REPEAT && repeatsRemaining <= 1` branch of
`Scheduler::findNextJob`: consume the last repeat, mark the job and its
duplicates IDLE, re-evaluate all jobs without selecting, then either finish
or continue the current observation. -/
def findNextJobRepeatLE1 (s : SchedState) (i : Nat) : SchedState :=
  let job := getJob s i
  let s1 :=
    if decide (0 < job.repeatsRemaining) then
      let s2 :=
        if !s.rememberJobProgress then
          setJob s i { job with repeatsRemaining := job.repeatsRemaining - 1,
                                completedIterations := job.completedIterations + 1 }
        else s
      setJob s2 i { getJob s2 i with startupTime := none }
    else s
  let s2 := { s1 with jobs := markDupsIdle (getJob s1 i) i 0 s1.jobs }
  let s3 := evaluateJobs s2 true
  if s3.activeJob == none || decide ((getJob s3 i).repeatsRemaining = 0) then
    let s4 := stopCurrentJobAction s3
    let s5 :=
      match s4.activeJob with
      | none => s4
      | some k =>
        let s6 := emit s4 (.jobEndedSignal (getJob s4 k).name (getJob s4 k).stopReason)
        let s7 := emit s6 (.appendLog "Job is complete after batches.")
        let s8 := if !(getJob s7 k).canCount then setJobState s7 k SCHEDJOB_COMPLETE else s7
        { s8 with activeJob := none }
    setupNextIteration s5 RUN_SCHEDULER
  else
    let r4 := executeJob s3 i
    let s4 := r4.1
    if !r4.2 then s4
    else
      let s5 :=
        if hasStep (getJob s4 i) USE_ALIGN && s4.forceAlignmentBeforeJob then
          let s6 := emit s4 .stopGuiding
          let s7 := updateJobStage s6 SCHEDSTAGE_ALIGNING
          emit s7 .startAstrometry
        else if hasStep (getJob s4 i) USE_GUIDE then
          let s6 := updateJobStage s4 SCHEDSTAGE_CAPTURING
          emit s6 (.startCapture false)
        else if hasStep (getJob s4 i) USE_ALIGN then
          let s6 := updateJobStage s4 SCHEDSTAGE_ALIGNING
          emit s6 .startAstrometry
        else if hasStep (getJob s4 i) USE_TRACK then
          let s6 := updateJobStage s4 SCHEDSTAGE_SLEWING
          emit s6 .startSlew
        else
          let s6 := updateJobStage s4 SCHEDSTAGE_CAPTURING
          emit s6 (.startCapture false)
      let s6 := emit s5 (.appendLog "Job is repeating, batches remaining.")
      setupNextIteration s6 RUN_JOBCHECK

/-- The `FINISH_LOOP || (FINISH_REPEAT && repeatsRemaining > 0)` branch of
`Scheduler::findNextJob`: consume a repeat if applicable, then restart the
pipeline (forced re-alignment or capture) and keep the job active. -/
def findNextJobLoopOrRepeat (s : SchedState) (i : Nat) : SchedState :=
  let job := getJob s i
  let s1 :=
    if job.completionCondition == FINISH_REPEAT && decide (1 < job.repeatsRemaining) then
      let s2 :=
        if !s.rememberJobProgress then
          setJob s i { job with repeatsRemaining := job.repeatsRemaining - 1,
                                completedIterations := job.completedIterations + 1 }
        else s
      setJob s2 i { getJob s2 i with startupTime := none }
    else s
  let r2 := executeJob s1 i
  let s2 := r2.1
  if !r2.2 then s2
  else
    let s3 :=
      if hasStep (getJob s2 i) USE_ALIGN && s2.forceAlignmentBeforeJob then
        let s4 := emit s2 .stopGuiding
        let s5 := updateJobStage s4 SCHEDSTAGE_ALIGNING
        emit s5 .startAstrometry
      else
        let s4 := updateJobStage s2 SCHEDSTAGE_CAPTURING
        emit s4 (.startCapture false)
    let s4 := { s3 with captureBatch := s3.captureBatch + 1 }
    let s5 :=
      if (getJob s4 i).completionCondition == FINISH_REPEAT then
        emit s4 (.appendLog "Job is repeating, batches remaining.")
      else emit s4 (.appendLog "Job is repeating, looping indefinitely.")
    setupNextIteration s5 RUN_JOBCHECK

/-- The `FINISH_AT` branch of `Scheduler::findNextJob`: finalize when the
fixed completion time has been reached, otherwise restart the pipeline. -/
def findNextJobAt (s : SchedState) (i : Nat) : SchedState :=
  let job := getJob s i
  if decide (secsToOpt s.now job.completionTime ≤ 0) then
    let s1 := emit s (.jobEndedSignal job.name job.stopReason)
    let s2 := { s1 with jobs := markDupsIdle job i 0 s1.jobs }
    let s3 := stopCurrentJobAction s2
    let s4 := { s3 with captureBatch := 0 }
    let s5 := emit s4 (.appendLog "Job stopping, reached completion time.")
    let s6 := updateJobStage s5 SCHEDSTAGE_IDLE
    let s7 := { s6 with activeJob := none }
    setupNextIteration s7 RUN_SCHEDULER
  else
    let r1 := executeJob s i
    let s1 := r1.1
    if !r1.2 then s1
    else
      let s2 :=
        if hasStep (getJob s1 i) USE_ALIGN && s1.forceAlignmentBeforeJob then
          let s3 := emit s1 .stopGuiding
          let s4 := updateJobStage s3 SCHEDSTAGE_ALIGNING
          emit s4 .startAstrometry
        else
          let s3 := updateJobStage s1 SCHEDSTAGE_CAPTURING
          emit s3 (.startCapture false)
      let s3 := { s2 with captureBatch := s2.captureBatch + 1 }
      let s4 := emit s3 (.appendLog "Job completed batch before completion time, restarted.")
      setupNextIteration s4 RUN_JOBCHECK

/-- The defensive final `else` of `Scheduler::findNextJob`: an unexpected
state / completion-condition combination is mitigated by logging a
bug-level debug message, resetting the job stage and restarting the
scheduler timer for a full re-evaluation. -/
def findNextJobFallback (s : SchedState) : SchedState :=
  let s1 := emit s (.debugLog "BUGBUG! Job timer elapsed, but no action to be taken.")
  let s2 := updateJobStage s1 SCHEDSTAGE_IDLE
  let s3 := { s2 with activeJob := none }
  setupNextIteration s3 RUN_SCHEDULER

/-- `Scheduler::findNextJob` (lines 2849-3148): decide what happens when the
active job's stage or lifetime ends.  Resets the four per-subsystem failure
counters, then dispatches on the job's state and completion condition to the
branch functions above (one per `else if` of the source); the final branch
is the defensive fallback for a combination that matches no branch.  The
source dereferences `activeJob()` unconditionally (guarded by an assert);
the embedding is a no-op when no job is active. -/
def findNextJob (s : SchedState) : SchedState :=
  if s.schedulerState == SCHEDULER_PAUSED then setPaused s
  else
    match s.activeJob with
    | none => s
    | some i =>
      let s0 := { s with alignFailureCount := 0, guideFailureCount := 0,
                         focusFailureCount := 0, captureFailureCount := 0 }
      let job := getJob s0 i
      if job.state == SCHEDJOB_ERROR || job.state == SCHEDJOB_ABORTED then
        findNextJobErrorAborted s0 i
      else if job.state == SCHEDJOB_IDLE then
        findNextJobIdle s0 i
      else if job.completionCondition == FINISH_SEQUENCE then
        findNextJobSequence s0 i
      else if job.completionCondition == FINISH_REPEAT && decide (job.repeatsRemaining ≤ 1) then
        findNextJobRepeatLE1 s0 i
      else if job.completionCondition == FINISH_LOOP ||
          (job.completionCondition == FINISH_REPEAT && decide (0 < job.repeatsRemaining)) then
        findNextJobLoopOrRepeat s0 i
      else if job.completionCondition == FINISH_AT then
        findNextJobAt s0 i
      else
        findNextJobFallback s0

/-- `Scheduler::setCaptureStatus` (lines 3754-3847): react to an
asynchronous capture-subsystem status callback while the active job is in
the CAPTURING stage. -/
def setCaptureStatus (s : SchedState) (status : Nat) : SchedState :=
  match s.activeJob with
  | none => s
  | some i =>
    let job := getJob s i
    if job.state == SCHEDJOB_SCHEDULED && ltOptTime s.now job.startupTime then s
    else if job.stage == SCHEDSTAGE_CAPTURING then
      if status == CAPTURE_PROGRESS && hasStep job USE_ALIGN then
        emit s .setAlignTargetCoords
      else if status == CAPTURE_ABORTED then
        let s1 := emit s (.appendLog "Warning: job failed to capture target.")
        let (s2, ok) := increaseCaptureFailureCount s1
        if ok then
          if hasStep job USE_GUIDE &&
              (s2.guidingStatus == GUIDE_ABORTED ||
                s2.guidingStatus == GUIDE_CALIBRATION_ERROR ||
                s2.guidingStatus == GUIDE_DITHERING_ERROR) then
            let s3 := emit s2 (.appendLog "Job is capturing, is restarting its guiding procedure.")
            emit s3 (.startGuiding true)
          else
            let s3 := emit s2 (.appendLog "Warning: job failed its capture procedure, restarting capture.")
            emit s3 (.startCapture true)
        else
          let s3 := emit s2 (.appendLog "Warning: job failed its capture procedure, marking aborted.")
          let s4 := setJobState s3 i SCHEDJOB_ABORTED
          findNextJob s4
      else if status == CAPTURE_COMPLETE then
        let s1 := setJobState s i SCHEDJOB_COMPLETE
        findNextJob s1
      else if status == CAPTURE_IMAGE_RECEIVED then
        let s1 :=
          if s.rememberJobProgress then s
          else setJob s i { job with completedCount := job.completedCount + 1 }
        { s1 with captureFailureCount := 0 }
      else s
    else s

/-- The `SCHEDSTAGE_CAPTURING` arm of `Scheduler::checkJobStageEplogue`
(lines 2442-2467): the capture inactivity watchdog.  `currentOperationMsec`
is `moduleState()->getCurrentOperationMsec()` (elapsed wall-clock time of
the current operation) and `captureStatus` the polled capture subsystem
`status` property (`Ekos::CaptureState`). -/
def checkCapturingStage (s : SchedState) (currentOperationMsec : Int) (captureStatus : Nat) :
    SchedState :=
  match s.activeJob with
  | none => s
  | some i =>
    if decide (currentOperationMsec > CAPTURE_INACTIVITY_TIMEOUT) then
      if captureStatus == CAPTURE_IDLE then
        let (s1, ok) := increaseCaptureFailureCount s
        if ok then emit s1 (.startCapture false)
        else
          let s2 := emit s1 (.appendLog "Warning: job capture procedure failed, marking aborted.")
          let s3 := setJobState s2 i SCHEDJOB_ABORTED
          findNextJob s3
      else startCurrentOperationTimer s
    else s

/-- `Scheduler::getNextAction` (lines 2574-2670): from the active job's
current stage, start the next enabled pipeline step. -/
def getNextAction (s : SchedState) : SchedState :=
  match s.activeJob with
  | none => s
  | some i =>
    let job := getJob s i
    if job.stage == SCHEDSTAGE_IDLE then
      if job.lightFramesRequired then
        if hasStep job USE_TRACK then emit s .startSlew
        else if hasStep job USE_FOCUS && !s.autofocusCompleted then emit s .startFocusing
        else if hasStep job USE_ALIGN then emit s .startAstrometry
        else if hasStep job USE_GUIDE then
          if s.guidingStatus == GUIDE_GUIDING then
            let s1 := emit s (.appendLog "Guiding already running, directly start capturing.")
            emit s1 (.startCapture false)
          else emit s (.startGuiding false)
        else emit s (.startCapture false)
      else
        let s1 :=
          if job.stepPipeline != 0 then
            emit s (.appendLog "Job is proceeding directly to capture stage because only calibration frames are pending.")
          else s
        emit s1 (.startCapture false)
    else if job.stage == SCHEDSTAGE_SLEW_COMPLETE then
      if hasStep job USE_FOCUS && !s.autofocusCompleted then emit s .startFocusing
      else if hasStep job USE_ALIGN then emit s .startAstrometry
      else if hasStep job USE_GUIDE then emit s (.startGuiding false)
      else emit s (.startCapture false)
    else if job.stage == SCHEDSTAGE_FOCUS_COMPLETE then
      if hasStep job USE_ALIGN then emit s .startAstrometry
      else if hasStep job USE_GUIDE then emit s (.startGuiding false)
      else emit s (.startCapture false)
    else if job.stage == SCHEDSTAGE_ALIGN_COMPLETE then
      updateJobStage s SCHEDSTAGE_RESLEWING
    else if job.stage == SCHEDSTAGE_RESLEWING_COMPLETE then
      if hasStep job USE_FOCUS && job.inSequenceFocus then emit s .startFocusing
      else if hasStep job USE_GUIDE then emit s (.startGuiding false)
      else emit s (.startCapture false)
    else if job.stage == SCHEDSTAGE_POSTALIGN_FOCUSING_COMPLETE then
      if hasStep job USE_GUIDE then emit s (.startGuiding false)
      else emit s (.startCapture false)
    else if job.stage == SCHEDSTAGE_GUIDING_COMPLETE then
      emit s (.startCapture false)
    else s

/- ---------------------------------------------------------------------------
The iteration loop (`Scheduler::runSchedulerIteration` / `iterate` /
`start`, lines 146-237).  The four phase handlers (`wakeUpScheduler`,
`checkStatus`, `checkJobStage`, `checkShutdownState`) drive the whole
startup/shutdown machinery; the loop itself is agnostic to them, so the
embedding abstracts them as a `phaseHandler` argument mapping the current
`SchedulerTimerState` and state to the new state (any handler instantiates
it), while the `RUN_NOTHING` arm — the one the claims are about — is
translated directly.
--------------------------------------------------------------------------- -/

/-- `Scheduler::runSchedulerIteration`: run the handler of the current
timer phase, then, if the handler failed to set up the next iteration,
fall back to repeating the current phase after the default period.
Returns the sleep interval to the caller (`iterate`). -/
def runSchedulerIteration (phaseHandler : Nat → SchedState → SchedState) (s : SchedState) :
    SchedState × Int :=
  let s1 := { s with iterationSetup := false }
  let keep := s1.timerState
  let s2 :=
    if keep == RUN_NOTHING then setTimerInterval s1 (-1)
    else phaseHandler keep s1
  let s3 :=
    if !s2.iterationSetup then setTimerInterval s2 s2.updatePeriodMs
    else s2
  (s3, s3.timerInterval)

/-- `Scheduler::iterate`: run one iteration; if the returned sleep interval
is negative, return without re-arming the single-shot iteration timer,
otherwise re-arm it (`timerArmed`). -/
def iterate (phaseHandler : Nat → SchedState → SchedState) (s : SchedState) : SchedState :=
  let r := runSchedulerIteration phaseHandler s
  if decide (r.2 < 0) then { r.1 with timerArmed := false }
  else { r.1 with timerArmed := true }

/-- `Scheduler::init`: initial conditions before starting - enable
preemptive shutdown so that wake-up starts up, clear the iteration setup
flag and schedule a RUN_WAKEUP iteration in 10 ms. -/
def init (s : SchedState) : SchedState :=
  let s1 := { s with preemptiveShutdown := true, iterationSetup := false }
  setupNextIterationMs s1 RUN_WAKEUP 10

/-- The part of `Scheduler::start` that runs before the first iteration:
reset every job of the queue to IDLE (a new scheduler session must not
inherit ABORT or ERROR states from the last one), then `init()`. -/
def startPrepared (s : SchedState) : SchedState :=
  init { s with jobs := s.jobs.map fun j => { j with state := SCHEDJOB_IDLE } }

/-- `Scheduler::start`: prepare the queue and run the first iteration of
the main loop. -/
def start (phaseHandler : Nat → SchedState → SchedState) (s : SchedState) : SchedState :=
  iterate phaseHandler (startPrepared s)

/- ---------------------------------------------------------------------------
Execution driver for the repeat claims: deliver CAPTURE_COMPLETE callbacks
(one per finished capture batch) until the scheduler retires the active job.
--------------------------------------------------------------------------- -/

/-- Deliver up to `fuel` capture-batch completions (`setCaptureStatus` with
`CAPTURE_COMPLETE`, each of which runs `findNextJob`) and count how many
batches the job executes before the scheduler clears the active job. -/
def runBatches : Nat → SchedState → Nat × SchedState
  | 0, s => (0, s)
  | Nat.succ fuel, s =>
    match s.activeJob with
    | none => (0, s)
    | some _ =>
      let s1 := setCaptureStatus s CAPTURE_COMPLETE
      match s1.activeJob with
      | none => (1, s1)
      | some _ =>
        let r := runBatches fuel s1
        (r.1 + 1, r.2)

/-- Number of capture-start commands in a trace. -/
def countStartCaptures (cs : List Command) : Nat :=
  cs.countP fun c =>
    match c with
    | Command.startCapture _ => true
    | _ => false

/-- A job with completion condition REPEAT(n), busy in the CAPTURING stage
(the job of the repeat-claim scenario; guiding enabled, frames stored
client-side). -/
def repeatJob (n : Int) : SchedulerJob :=
  { name := "repeat-job", targetRa := 10, targetDec := 20,
    sequenceFile := "seq.esq",
    state := SCHEDJOB_BUSY, stage := SCHEDSTAGE_CAPTURING,
    completionCondition := FINISH_REPEAT,
    repeatsRemaining := n, repeatsRequired := n,
    completedIterations := 0, completedCount := 0,
    stepPipeline := USE_GUIDE, lightFramesRequired := true,
    inSequenceFocus := false,
    startupTime := none, completionTime := none,
    stopReason := "", canCount := true }

/-- Scheduler state executing `repeatJob n` with remember-job-progress
disabled, no forced re-alignment and no reason to sleep. -/
def initRepeatState (n : Int) : SchedState :=
  { jobs := [repeatJob n], activeJob := some 0,
    schedulerState := SCHEDULER_RUNNING,
    timerState := RUN_JOBCHECK, timerInterval := 1000,
    iterationSetup := false, timerArmed := true,
    alignFailureCount := 0, guideFailureCount := 0,
    focusFailureCount := 0, captureFailureCount := 0,
    maxFailureAttempts := 3, captureBatch := 0,
    autofocusCompleted := false,
    rememberJobProgress := false, forceAlignmentBeforeJob := false,
    errorHandlingDontRestart := true,
    errorHandlingRestartImmediately := false,
    errorHandlingRescheduleErrors := false,
    errorHandlingDelay := 0, updatePeriodMs := 1000,
    now := 0, shouldSleep := false,
    guidingStatus := GUIDE_GUIDING,
    greedyScheduledJob := none, preemptiveShutdown := false,
    currentOperationStart := 0, commands := [] }

example : (getJob (runBatches 6 (initRepeatState 3)).2 0).state = SCHEDJOB_COMPLETE := by decide
example : (getJob (runBatches 6 (initRepeatState 3)).2 0).completedIterations = 3 := by decide
example : (runBatches 6 (initRepeatState 1)).1 = 1 := by decide

/-- A job with completion condition LOOP_FOREVER, busy in the CAPTURING
stage. -/
def loopJob : SchedulerJob :=
  { repeatJob 0 with completionCondition := FINISH_LOOP, repeatsRemaining := 0 }

/-- Scheduler state executing `loopJob`. -/
def initLoopState : SchedState :=
  { initRepeatState 0 with jobs := [loopJob] }

/-- A job just COMPLETE after its sequence, with completion condition
SEQUENCE_COMPLETE; `cc` sets whether its captures can be recounted later
(`canCountCaptures`). -/
def seqActiveJob (cc : Bool) : SchedulerJob :=
  { repeatJob 0 with
      completionCondition := FINISH_SEQUENCE
      state := SCHEDJOB_COMPLETE
      canCount := cc }

/-- A second job with the same target and sequence file as
`seqActiveJob` (a duplicate), currently ABORTED. -/
def seqDuplicateJob : SchedulerJob :=
  { repeatJob 0 with
      completionCondition := FINISH_SEQUENCE
      state := SCHEDJOB_ABORTED
      name := "duplicate" }

/-- The two duplicate jobs queued, job 0 active, remember-progress on. -/
def seqPairState (cc : Bool) : SchedState :=
  { initRepeatState 0 with
      jobs := [seqActiveJob cc, seqDuplicateJob]
      rememberJobProgress := true }

/-- A job in the ABORTED state. -/
def abortedJob : SchedulerJob :=
  { repeatJob 0 with state := SCHEDJOB_ABORTED }

/-- A job in the ERROR state. -/
def erroredJob : SchedulerJob :=
  { repeatJob 0 with state := SCHEDJOB_ERROR, name := "errored" }

/-- A queue holding one ABORTED and one ERROR job (nothing runnable) with
the error-handling strategy given by `dontRestart`; the greedy scheduler has
selected nothing. -/
def abortedPairState (dontRestart : Bool) : SchedState :=
  { initRepeatState 0 with
      jobs := [abortedJob, erroredJob]
      activeJob := none
      errorHandlingDontRestart := dontRestart
      greedyScheduledJob := none }

/-- A busy job whose completion condition is an out-of-range enum value
(42): no branch of the job-termination decision tree matches it. -/
def oddJob : SchedulerJob :=
  { repeatJob 0 with completionCondition := 42, state := SCHEDJOB_BUSY }

/-- Scheduler state whose active job is `oddJob`. -/
def fallbackState : SchedState :=
  { initRepeatState 0 with jobs := [oddJob] }

/-- A scheduler state whose iteration loop is in the RUN_NOTHING phase. -/
def nothingState : SchedState :=
  { initRepeatState 0 with timerState := RUN_NOTHING }

/-- A trivial phase handler (identity on the state), used to instantiate
the handler-generic loop theorems. -/
def idHandler : Nat → SchedState → SchedState := fun _ t => t

/-- A job at stage IDLE needing light frames whose only enabled pipeline
step is GUIDE, while guiding is already running. -/
def guideSkipState : SchedState :=
  { initRepeatState 1 with jobs := [{ repeatJob 1 with stage := SCHEDSTAGE_IDLE }] }

/-- The repeat-job state with all four failure counters non-zero. -/
def dirtyCountersState : SchedState :=
  { initRepeatState 1 with
      alignFailureCount := 2
      guideFailureCount := 1
      focusFailureCount := 3
      captureFailureCount := 2 }

/- ---------------------------------------------------------------------------
Shared lemma toolkit.
--------------------------------------------------------------------------- -/

theorem getD_set_self (l : List SchedulerJob) (i : Nat) (a d : SchedulerJob)
    (h : i < l.length) : (l.set i a).getD i d = a := by
  simp [List.getD_eq_getElem?_getD, List.getElem?_set_self, h]

theorem getD_set_ne (l : List SchedulerJob) (i k : Nat) (a d : SchedulerJob)
    (h : i ≠ k) : (l.set i a).getD k d = l.getD k d := by
  simp [List.getD_eq_getElem?_getD, List.getElem?_set_ne, h]

theorem getJob_setJob_self (s : SchedState) (i : Nat) (j : SchedulerJob)
    (h : i < s.jobs.length) : getJob (setJob s i j) i = j := by
  simp [getJob, setJob, getD_set_self, h]

theorem getJob_setJob_ne (s : SchedState) (i k : Nat) (j : SchedulerJob)
    (h : i ≠ k) : getJob (setJob s i j) k = getJob s k := by
  simp [getJob, setJob, getD_set_ne, h]

@[simp] theorem markDupsIdle_length (act : SchedulerJob) (i : Nat) (base : Nat)
    (l : List SchedulerJob) : (markDupsIdle act i base l).length = l.length := by
  induction l generalizing base with
  | nil => rfl
  | cons hd tl ih => simp [markDupsIdle, ih]

theorem getD_markDupsIdle (act : SchedulerJob) (i : Nat) (base : Nat)
    (l : List SchedulerJob) (k : Nat) (d : SchedulerJob) (h : k < l.length) :
    (markDupsIdle act i base l).getD k d =
      (if (base + k) == i || isDuplicateOf (l.getD k d) act then
        { l.getD k d with state := SCHEDJOB_IDLE } else l.getD k d) := by
  induction l generalizing base k with
  | nil => simp at h
  | cons hd tl ih =>
    cases k with
    | zero => simp [markDupsIdle]
    | succ k =>
      have hk : k < tl.length := by simpa using h
      have := ih (base + 1) k hk
      simpa [markDupsIdle, Nat.add_assoc, Nat.add_comm 1 k] using this

theorem getElem_markDupsIdle (act : SchedulerJob) (i base : Nat)
    (l : List SchedulerJob) (k : Nat) (h : k < l.length)
    (h2 : k < (markDupsIdle act i base l).length) :
    (markDupsIdle act i base l)[k] =
      (if (base + k) == i || isDuplicateOf l[k] act then
        { l[k] with state := SCHEDJOB_IDLE } else l[k]) := by
  induction l generalizing base k with
  | nil => simp at h
  | cons hd tl ih =>
    cases k with
    | zero => simp [markDupsIdle]
    | succ k =>
      have hk : k < tl.length := by simpa using h
      have hk2 : k < (markDupsIdle act i (base + 1) tl).length := by simpa using hk
      have := ih (base + 1) k hk hk2
      simpa [markDupsIdle, Nat.add_assoc, Nat.add_comm 1 k] using this

/-- The four per-subsystem failure counters of a state, bundled. -/
def failCounts (s : SchedState) : Nat × Nat × Nat × Nat :=
  (s.alignFailureCount, s.guideFailureCount, s.focusFailureCount, s.captureFailureCount)

@[simp] theorem failCounts_emit (s : SchedState) (c : Command) :
    failCounts (emit s c) = failCounts s := rfl

@[simp] theorem failCounts_setJob (s : SchedState) (i : Nat) (j : SchedulerJob) :
    failCounts (setJob s i j) = failCounts s := rfl

@[simp] theorem failCounts_setJobState (s : SchedState) (i st : Nat) :
    failCounts (setJobState s i st) = failCounts s := rfl

@[simp] theorem failCounts_updateJobStage (s : SchedState) (st : Nat) :
    failCounts (updateJobStage s st) = failCounts s := by
  unfold updateJobStage
  cases s.activeJob <;> rfl

@[simp] theorem failCounts_stopCurrentJobAction (s : SchedState) :
    failCounts (stopCurrentJobAction s) = failCounts s := by
  unfold stopCurrentJobAction
  cases s.activeJob
  · rfl
  · dsimp only
    split_ifs <;> simp

@[simp] theorem failCounts_setupNextIterationMs (s : SchedState) (st : Nat) (ms : Int) :
    failCounts (setupNextIterationMs s st ms) = failCounts s := rfl

@[simp] theorem failCounts_setupNextIteration (s : SchedState) (st : Nat) :
    failCounts (setupNextIteration s st) = failCounts s := rfl

@[simp] theorem failCounts_setTimerInterval (s : SchedState) (ms : Int) :
    failCounts (setTimerInterval s ms) = failCounts s := rfl

@[simp] theorem failCounts_greedyScheduleJobs (s : SchedState) :
    failCounts (greedyScheduleJobs s) = failCounts s := rfl

@[simp] theorem failCounts_selectActiveJob (s : SchedState) :
    failCounts (selectActiveJob s) = failCounts s := by
  unfold selectActiveJob
  split_ifs <;> first | rfl | (cases s.greedyScheduledJob <;> rfl)

@[simp] theorem failCounts_evaluateJobs (s : SchedState) (b : Bool) :
    failCounts (evaluateJobs s b) = failCounts s := by
  unfold evaluateJobs
  dsimp only
  split_ifs <;> simp

@[simp] theorem failCounts_executeJob (s : SchedState) (i : Nat) :
    failCounts (executeJob s i).1 = failCounts s := by
  unfold executeJob
  dsimp only
  split_ifs <;> rfl

/- Individual counter projections of the helper functions, derived from the
`failCounts` frame lemmas (used to evaluate `findNextJob` symbolically). -/

@[simp] theorem afc_emit (s : SchedState) (c : Command) :
    (emit s c).alignFailureCount = s.alignFailureCount := by
  have h := failCounts_emit s c
  exact congrArg Prod.fst h

@[simp] theorem gfc_emit (s : SchedState) (c : Command) :
    (emit s c).guideFailureCount = s.guideFailureCount := by
  have h := failCounts_emit s c
  exact congrArg Prod.fst (congrArg Prod.snd h)

@[simp] theorem ffc_emit (s : SchedState) (c : Command) :
    (emit s c).focusFailureCount = s.focusFailureCount := by
  have h := failCounts_emit s c
  exact congrArg Prod.fst (congrArg Prod.snd (congrArg Prod.snd h))

@[simp] theorem cfc_emit (s : SchedState) (c : Command) :
    (emit s c).captureFailureCount = s.captureFailureCount := by
  have h := failCounts_emit s c
  exact congrArg Prod.snd (congrArg Prod.snd (congrArg Prod.snd h))

@[simp] theorem afc_setJob (s : SchedState) (i : Nat) (j : SchedulerJob) :
    (setJob s i j).alignFailureCount = s.alignFailureCount := by
  have h := failCounts_setJob s i j
  exact congrArg Prod.fst h

@[simp] theorem gfc_setJob (s : SchedState) (i : Nat) (j : SchedulerJob) :
    (setJob s i j).guideFailureCount = s.guideFailureCount := by
  have h := failCounts_setJob s i j
  exact congrArg Prod.fst (congrArg Prod.snd h)

@[simp] theorem ffc_setJob (s : SchedState) (i : Nat) (j : SchedulerJob) :
    (setJob s i j).focusFailureCount = s.focusFailureCount := by
  have h := failCounts_setJob s i j
  exact congrArg Prod.fst (congrArg Prod.snd (congrArg Prod.snd h))

@[simp] theorem cfc_setJob (s : SchedState) (i : Nat) (j : SchedulerJob) :
    (setJob s i j).captureFailureCount = s.captureFailureCount := by
  have h := failCounts_setJob s i j
  exact congrArg Prod.snd (congrArg Prod.snd (congrArg Prod.snd h))

@[simp] theorem afc_setJobState (s : SchedState) (i st : Nat) :
    (setJobState s i st).alignFailureCount = s.alignFailureCount := by
  have h := failCounts_setJobState s i st
  exact congrArg Prod.fst h

@[simp] theorem gfc_setJobState (s : SchedState) (i st : Nat) :
    (setJobState s i st).guideFailureCount = s.guideFailureCount := by
  have h := failCounts_setJobState s i st
  exact congrArg Prod.fst (congrArg Prod.snd h)

@[simp] theorem ffc_setJobState (s : SchedState) (i st : Nat) :
    (setJobState s i st).focusFailureCount = s.focusFailureCount := by
  have h := failCounts_setJobState s i st
  exact congrArg Prod.fst (congrArg Prod.snd (congrArg Prod.snd h))

@[simp] theorem cfc_setJobState (s : SchedState) (i st : Nat) :
    (setJobState s i st).captureFailureCount = s.captureFailureCount := by
  have h := failCounts_setJobState s i st
  exact congrArg Prod.snd (congrArg Prod.snd (congrArg Prod.snd h))

@[simp] theorem afc_updateJobStage (s : SchedState) (st : Nat) :
    (updateJobStage s st).alignFailureCount = s.alignFailureCount := by
  have h := failCounts_updateJobStage s st
  exact congrArg Prod.fst h

@[simp] theorem gfc_updateJobStage (s : SchedState) (st : Nat) :
    (updateJobStage s st).guideFailureCount = s.guideFailureCount := by
  have h := failCounts_updateJobStage s st
  exact congrArg Prod.fst (congrArg Prod.snd h)

@[simp] theorem ffc_updateJobStage (s : SchedState) (st : Nat) :
    (updateJobStage s st).focusFailureCount = s.focusFailureCount := by
  have h := failCounts_updateJobStage s st
  exact congrArg Prod.fst (congrArg Prod.snd (congrArg Prod.snd h))

@[simp] theorem cfc_updateJobStage (s : SchedState) (st : Nat) :
    (updateJobStage s st).captureFailureCount = s.captureFailureCount := by
  have h := failCounts_updateJobStage s st
  exact congrArg Prod.snd (congrArg Prod.snd (congrArg Prod.snd h))

@[simp] theorem afc_stopCurrentJobAction (s : SchedState) :
    (stopCurrentJobAction s).alignFailureCount = s.alignFailureCount := by
  have h := failCounts_stopCurrentJobAction s
  exact congrArg Prod.fst h

@[simp] theorem gfc_stopCurrentJobAction (s : SchedState) :
    (stopCurrentJobAction s).guideFailureCount = s.guideFailureCount := by
  have h := failCounts_stopCurrentJobAction s
  exact congrArg Prod.fst (congrArg Prod.snd h)

@[simp] theorem ffc_stopCurrentJobAction (s : SchedState) :
    (stopCurrentJobAction s).focusFailureCount = s.focusFailureCount := by
  have h := failCounts_stopCurrentJobAction s
  exact congrArg Prod.fst (congrArg Prod.snd (congrArg Prod.snd h))

@[simp] theorem cfc_stopCurrentJobAction (s : SchedState) :
    (stopCurrentJobAction s).captureFailureCount = s.captureFailureCount := by
  have h := failCounts_stopCurrentJobAction s
  exact congrArg Prod.snd (congrArg Prod.snd (congrArg Prod.snd h))

@[simp] theorem afc_setupNextIterationMs (s : SchedState) (st : Nat) (ms : Int) :
    (setupNextIterationMs s st ms).alignFailureCount = s.alignFailureCount := by
  have h := failCounts_setupNextIterationMs s st ms
  exact congrArg Prod.fst h

@[simp] theorem gfc_setupNextIterationMs (s : SchedState) (st : Nat) (ms : Int) :
    (setupNextIterationMs s st ms).guideFailureCount = s.guideFailureCount := by
  have h := failCounts_setupNextIterationMs s st ms
  exact congrArg Prod.fst (congrArg Prod.snd h)

@[simp] theorem ffc_setupNextIterationMs (s : SchedState) (st : Nat) (ms : Int) :
    (setupNextIterationMs s st ms).focusFailureCount = s.focusFailureCount := by
  have h := failCounts_setupNextIterationMs s st ms
  exact congrArg Prod.fst (congrArg Prod.snd (congrArg Prod.snd h))

@[simp] theorem cfc_setupNextIterationMs (s : SchedState) (st : Nat) (ms : Int) :
    (setupNextIterationMs s st ms).captureFailureCount = s.captureFailureCount := by
  have h := failCounts_setupNextIterationMs s st ms
  exact congrArg Prod.snd (congrArg Prod.snd (congrArg Prod.snd h))

@[simp] theorem afc_setupNextIteration (s : SchedState) (st : Nat) :
    (setupNextIteration s st).alignFailureCount = s.alignFailureCount := by
  have h := failCounts_setupNextIteration s st
  exact congrArg Prod.fst h

@[simp] theorem gfc_setupNextIteration (s : SchedState) (st : Nat) :
    (setupNextIteration s st).guideFailureCount = s.guideFailureCount := by
  have h := failCounts_setupNextIteration s st
  exact congrArg Prod.fst (congrArg Prod.snd h)

@[simp] theorem ffc_setupNextIteration (s : SchedState) (st : Nat) :
    (setupNextIteration s st).focusFailureCount = s.focusFailureCount := by
  have h := failCounts_setupNextIteration s st
  exact congrArg Prod.fst (congrArg Prod.snd (congrArg Prod.snd h))

@[simp] theorem cfc_setupNextIteration (s : SchedState) (st : Nat) :
    (setupNextIteration s st).captureFailureCount = s.captureFailureCount := by
  have h := failCounts_setupNextIteration s st
  exact congrArg Prod.snd (congrArg Prod.snd (congrArg Prod.snd h))

@[simp] theorem afc_setTimerInterval (s : SchedState) (ms : Int) :
    (setTimerInterval s ms).alignFailureCount = s.alignFailureCount := by
  have h := failCounts_setTimerInterval s ms
  exact congrArg Prod.fst h

@[simp] theorem gfc_setTimerInterval (s : SchedState) (ms : Int) :
    (setTimerInterval s ms).guideFailureCount = s.guideFailureCount := by
  have h := failCounts_setTimerInterval s ms
  exact congrArg Prod.fst (congrArg Prod.snd h)

@[simp] theorem ffc_setTimerInterval (s : SchedState) (ms : Int) :
    (setTimerInterval s ms).focusFailureCount = s.focusFailureCount := by
  have h := failCounts_setTimerInterval s ms
  exact congrArg Prod.fst (congrArg Prod.snd (congrArg Prod.snd h))

@[simp] theorem cfc_setTimerInterval (s : SchedState) (ms : Int) :
    (setTimerInterval s ms).captureFailureCount = s.captureFailureCount := by
  have h := failCounts_setTimerInterval s ms
  exact congrArg Prod.snd (congrArg Prod.snd (congrArg Prod.snd h))

@[simp] theorem afc_greedyScheduleJobs (s : SchedState) :
    (greedyScheduleJobs s).alignFailureCount = s.alignFailureCount := by
  have h := failCounts_greedyScheduleJobs s
  exact congrArg Prod.fst h

@[simp] theorem gfc_greedyScheduleJobs (s : SchedState) :
    (greedyScheduleJobs s).guideFailureCount = s.guideFailureCount := by
  have h := failCounts_greedyScheduleJobs s
  exact congrArg Prod.fst (congrArg Prod.snd h)

@[simp] theorem ffc_greedyScheduleJobs (s : SchedState) :
    (greedyScheduleJobs s).focusFailureCount = s.focusFailureCount := by
  have h := failCounts_greedyScheduleJobs s
  exact congrArg Prod.fst (congrArg Prod.snd (congrArg Prod.snd h))

@[simp] theorem cfc_greedyScheduleJobs (s : SchedState) :
    (greedyScheduleJobs s).captureFailureCount = s.captureFailureCount := by
  have h := failCounts_greedyScheduleJobs s
  exact congrArg Prod.snd (congrArg Prod.snd (congrArg Prod.snd h))

@[simp] theorem afc_selectActiveJob (s : SchedState) :
    (selectActiveJob s).alignFailureCount = s.alignFailureCount := by
  have h := failCounts_selectActiveJob s
  exact congrArg Prod.fst h

@[simp] theorem gfc_selectActiveJob (s : SchedState) :
    (selectActiveJob s).guideFailureCount = s.guideFailureCount := by
  have h := failCounts_selectActiveJob s
  exact congrArg Prod.fst (congrArg Prod.snd h)

@[simp] theorem ffc_selectActiveJob (s : SchedState) :
    (selectActiveJob s).focusFailureCount = s.focusFailureCount := by
  have h := failCounts_selectActiveJob s
  exact congrArg Prod.fst (congrArg Prod.snd (congrArg Prod.snd h))

@[simp] theorem cfc_selectActiveJob (s : SchedState) :
    (selectActiveJob s).captureFailureCount = s.captureFailureCount := by
  have h := failCounts_selectActiveJob s
  exact congrArg Prod.snd (congrArg Prod.snd (congrArg Prod.snd h))

@[simp] theorem afc_evaluateJobs (s : SchedState) (b : Bool) :
    (evaluateJobs s b).alignFailureCount = s.alignFailureCount := by
  have h := failCounts_evaluateJobs s b
  exact congrArg Prod.fst h

@[simp] theorem gfc_evaluateJobs (s : SchedState) (b : Bool) :
    (evaluateJobs s b).guideFailureCount = s.guideFailureCount := by
  have h := failCounts_evaluateJobs s b
  exact congrArg Prod.fst (congrArg Prod.snd h)

@[simp] theorem ffc_evaluateJobs (s : SchedState) (b : Bool) :
    (evaluateJobs s b).focusFailureCount = s.focusFailureCount := by
  have h := failCounts_evaluateJobs s b
  exact congrArg Prod.fst (congrArg Prod.snd (congrArg Prod.snd h))

@[simp] theorem cfc_evaluateJobs (s : SchedState) (b : Bool) :
    (evaluateJobs s b).captureFailureCount = s.captureFailureCount := by
  have h := failCounts_evaluateJobs s b
  exact congrArg Prod.snd (congrArg Prod.snd (congrArg Prod.snd h))

@[simp] theorem afc_executeJobFst (s : SchedState) (i : Nat) :
    ((executeJob s i).1).alignFailureCount = s.alignFailureCount := by
  have h := failCounts_executeJob s i
  exact congrArg Prod.fst h

@[simp] theorem gfc_executeJobFst (s : SchedState) (i : Nat) :
    ((executeJob s i).1).guideFailureCount = s.guideFailureCount := by
  have h := failCounts_executeJob s i
  exact congrArg Prod.fst (congrArg Prod.snd h)

@[simp] theorem ffc_executeJobFst (s : SchedState) (i : Nat) :
    ((executeJob s i).1).focusFailureCount = s.focusFailureCount := by
  have h := failCounts_executeJob s i
  exact congrArg Prod.fst (congrArg Prod.snd (congrArg Prod.snd h))

@[simp] theorem cfc_executeJobFst (s : SchedState) (i : Nat) :
    ((executeJob s i).1).captureFailureCount = s.captureFailureCount := by
  have h := failCounts_executeJob s i
  exact congrArg Prod.snd (congrArg Prod.snd (congrArg Prod.snd h))

@[simp] theorem failCounts_findNextJobErrorAborted (s : SchedState) (i : Nat) :
    failCounts (findNextJobErrorAborted s i) = failCounts s := by
  unfold findNextJobErrorAborted
  dsimp only
  split_ifs <;> simp [failCounts]

@[simp] theorem failCounts_findNextJobIdle (s : SchedState) (i : Nat) :
    failCounts (findNextJobIdle s i) = failCounts s := by
  simp [findNextJobIdle, failCounts]

@[simp] theorem failCounts_findNextJobSequence (s : SchedState) (i : Nat) :
    failCounts (findNextJobSequence s i) = failCounts s := by
  unfold findNextJobSequence
  dsimp only
  split_ifs <;> simp [failCounts]

set_option maxHeartbeats 2000000 in
@[simp] theorem failCounts_findNextJobRepeatLE1 (s : SchedState) (i : Nat) :
    failCounts (findNextJobRepeatLE1 s i) = failCounts s := by
  unfold findNextJobRepeatLE1
  dsimp only
  split_ifs <;> (try split) <;> (try split_ifs) <;> simp [failCounts]

@[simp] theorem failCounts_findNextJobLoopOrRepeat (s : SchedState) (i : Nat) :
    failCounts (findNextJobLoopOrRepeat s i) = failCounts s := by
  unfold findNextJobLoopOrRepeat
  dsimp only
  split_ifs <;> simp [failCounts]

@[simp] theorem failCounts_findNextJobAt (s : SchedState) (i : Nat) :
    failCounts (findNextJobAt s i) = failCounts s := by
  unfold findNextJobAt
  dsimp only
  split_ifs <;> simp [failCounts]

@[simp] theorem failCounts_findNextJobFallback (s : SchedState) :
    failCounts (findNextJobFallback s) = failCounts s := by
  simp [findNextJobFallback, failCounts]

/- ---------------------------------------------------------------------------
Claim theorems.
--------------------------------------------------------------------------- -/

/-- C1: if the active job is in the CAPTURING stage, the elapsed time of the
current operation exceeds the capture inactivity timeout and the polled
capture status is IDLE, then: while the per-capture failure counter (after
incrementing) is still within the configured maximum, the counter is
incremented and the capture start command is re-issued (and nothing else
changes); once the maximum is exceeded, the active job's state is set to
ABORTED and `findNextJob` is invoked on the resulting state instead of a
retry. -/
theorem capture_inactivity_retry_then_abort (s : SchedState) (i : Nat) (e : Int) (st : Nat)
    (hact : s.activeJob = some i) (hi : i < s.jobs.length)
    (helapsed : CAPTURE_INACTIVITY_TIMEOUT < e) (hstatus : st = CAPTURE_IDLE) :
    (s.captureFailureCount + 1 ≤ s.maxFailureAttempts →
      checkCapturingStage s e st =
        emit { s with captureFailureCount := s.captureFailureCount + 1 }
          (Command.startCapture false)) ∧
    (s.maxFailureAttempts < s.captureFailureCount + 1 →
      checkCapturingStage s e st =
        findNextJob (setJobState
          (emit { s with captureFailureCount := s.captureFailureCount + 1 }
            (Command.appendLog "Warning: job capture procedure failed, marking aborted."))
          i SCHEDJOB_ABORTED) ∧
      (getJob (setJobState
          (emit { s with captureFailureCount := s.captureFailureCount + 1 }
            (Command.appendLog "Warning: job capture procedure failed, marking aborted."))
          i SCHEDJOB_ABORTED) i).state = SCHEDJOB_ABORTED) := by
  constructor
  · intro h
    simp [checkCapturingStage, increaseCaptureFailureCount, hact, hstatus, helapsed, h, emit]
  · intro h
    have h2 : ¬ (s.captureFailureCount + 1 ≤ s.maxFailureAttempts) := by omega
    refine ⟨?_, ?_⟩
    · simp [checkCapturingStage, increaseCaptureFailureCount, hact, hstatus, helapsed, h2, emit]
    · have hlen : i < (emit { s with captureFailureCount := s.captureFailureCount + 1 }
          (Command.appendLog "Warning: job capture procedure failed, marking aborted.")).jobs.length := by
        simpa [emit] using hi
      simp [setJobState, getJob_setJob_self _ _ _ hlen]

/-- Witness for C1 at a concrete state: on the first timeout (counter 0,
maximum 3) the counter becomes 1 and capture is restarted. -/
theorem capture_inactivity_retry_then_abort_witness :
    checkCapturingStage (initRepeatState 2) 180001 CAPTURE_IDLE =
      emit { initRepeatState 2 with
              captureFailureCount := (initRepeatState 2).captureFailureCount + 1 }
        (Command.startCapture false) :=
  (capture_inactivity_retry_then_abort (initRepeatState 2) 0 180001 CAPTURE_IDLE rfl
    (by decide) (by decide) rfl).1 (by decide)

/-- C2: a job with completion condition REPEAT(N), N in 1..5, with
remember-job-progress disabled and no aborts, runs exactly N capture
batches before being retired COMPLETE with no repeats remaining and N
completed iterations; the capture pipeline is restarted N-1 times, and any
batch completion with more than one repeat remaining decrements the repeat
count by one, keeps the job active and restarts capture. -/
theorem repeat_job_runs_exactly_n_batches (n : Nat) (h1 : 1 ≤ n) (h5 : n ≤ 5) :
    (runBatches 6 (initRepeatState n)).1 = n ∧
    (getJob (runBatches 6 (initRepeatState n)).2 0).state = SCHEDJOB_COMPLETE ∧
    (getJob (runBatches 6 (initRepeatState n)).2 0).repeatsRemaining = 0 ∧
    (getJob (runBatches 6 (initRepeatState n)).2 0).completedIterations = (n : Int) ∧
    countStartCaptures (runBatches 6 (initRepeatState n)).2.commands = n - 1 ∧
    (∀ m : Nat, 2 ≤ m → m ≤ 5 →
      (getJob (setCaptureStatus (initRepeatState m) CAPTURE_COMPLETE) 0).repeatsRemaining =
        (m : Int) - 1 ∧
      (setCaptureStatus (initRepeatState m) CAPTURE_COMPLETE).activeJob = some 0 ∧
      Command.startCapture false ∈
        (setCaptureStatus (initRepeatState m) CAPTURE_COMPLETE).commands) := by
  have inner : ∀ m : Nat, 2 ≤ m → m ≤ 5 →
      (getJob (setCaptureStatus (initRepeatState m) CAPTURE_COMPLETE) 0).repeatsRemaining =
        (m : Int) - 1 ∧
      (setCaptureStatus (initRepeatState m) CAPTURE_COMPLETE).activeJob = some 0 ∧
      Command.startCapture false ∈
        (setCaptureStatus (initRepeatState m) CAPTURE_COMPLETE).commands := by
    intro m hm2 hm5
    interval_cases m <;> exact ⟨by decide, by decide, by decide⟩
  interval_cases n <;>
    exact ⟨by decide, by decide, by decide, by decide, by decide, inner⟩

/-- Witness for C2 at N = 3: exactly three batches run before the job is
retired COMPLETE. -/
theorem repeat_job_runs_exactly_n_batches_witness :
    (runBatches 6 (initRepeatState 3)).1 = 3 ∧
    (getJob (runBatches 6 (initRepeatState 3)).2 0).state = SCHEDJOB_COMPLETE :=
  ⟨(repeat_job_runs_exactly_n_batches 3 (by decide) (by decide)).1,
   (repeat_job_runs_exactly_n_batches 3 (by decide) (by decide)).2.1⟩

/-- C3: a job with completion condition LOOP_FOREVER is never retired by the
scheduler itself: when its capture batch ends (capture status COMPLETE in
the CAPTURING stage, scheduler running, no reason to sleep or wait),
job-termination handling keeps it the active job, puts it back to BUSY (in
particular not COMPLETE), restarts the pipeline — capture, or forced
re-alignment — bumps the batch counter and schedules the next job-check
iteration. -/
theorem loop_job_never_self_completes (s : SchedState) (i : Nat)
    (hact : s.activeJob = some i) (hi : i < s.jobs.length)
    (hpause : s.schedulerState ≠ SCHEDULER_PAUSED)
    (hstate : (getJob s i).state = SCHEDJOB_BUSY)
    (hstage : (getJob s i).stage = SCHEDSTAGE_CAPTURING)
    (hcond : (getJob s i).completionCondition = FINISH_LOOP)
    (hsleep : s.shouldSleep = false)
    (hstart : (getJob s i).startupTime = none) :
    (setCaptureStatus s CAPTURE_COMPLETE).activeJob = some i ∧
    (getJob (setCaptureStatus s CAPTURE_COMPLETE) i).state = SCHEDJOB_BUSY ∧
    (getJob (setCaptureStatus s CAPTURE_COMPLETE) i).state ≠ SCHEDJOB_COMPLETE ∧
    (setCaptureStatus s CAPTURE_COMPLETE).timerState = RUN_JOBCHECK ∧
    (setCaptureStatus s CAPTURE_COMPLETE).captureBatch = s.captureBatch + 1 ∧
    ((getJob (setCaptureStatus s CAPTURE_COMPLETE) i).stage = SCHEDSTAGE_CAPTURING ∧
        Command.startCapture false ∈ (setCaptureStatus s CAPTURE_COMPLETE).commands ∨
      (getJob (setCaptureStatus s CAPTURE_COMPLETE) i).stage = SCHEDSTAGE_ALIGNING ∧
        Command.startAstrometry ∈ (setCaptureStatus s CAPTURE_COMPLETE).commands) := by
  obtain ⟨jobs, act, schedSt, tSt, tInt, iSet, tArm, afc, gfc, ffc, cfc, mfa, cb, afC,
    rjp, fab, dr, ri, re, ed, up, now, sl, gs, gsj, ps, cos, cmds⟩ := s
  simp only [SchedState.activeJob] at hact
  subst hact
  simp only at hstate hstage hcond hstart hsleep hpause hi ⊢
  by_cases hal : (jobs.getD i default).stepPipeline &&& USE_ALIGN = 0
  all_goals by_cases hfab : fab
  all_goals
    simp_all [setCaptureStatus, findNextJob, findNextJobLoopOrRepeat, executeJob, updateJobStage,
      setupNextIteration, setupNextIterationMs, setJobState, setJob, emit, getJob, secsToOpt,
      ltOptTime, getD_set_self, hasStep, USE_ALIGN, USE_GUIDE,
      SCHEDJOB_COMPLETE, SCHEDJOB_ERROR, SCHEDJOB_ABORTED, SCHEDJOB_IDLE, SCHEDJOB_BUSY,
      SCHEDJOB_SCHEDULED, SCHEDULER_PAUSED, FINISH_LOOP, FINISH_SEQUENCE, FINISH_REPEAT,
      FINISH_AT, SCHEDSTAGE_CAPTURING, SCHEDSTAGE_ALIGNING, RUN_JOBCHECK,
      CAPTURE_COMPLETE, CAPTURE_PROGRESS, CAPTURE_ABORTED, CAPTURE_IMAGE_RECEIVED]

/-- Witness for C3 at a concrete LOOP job: after a batch completes the job
is still the active job and back to BUSY. -/
theorem loop_job_never_self_completes_witness :
    (setCaptureStatus initLoopState CAPTURE_COMPLETE).activeJob = some 0 ∧
    (getJob (setCaptureStatus initLoopState CAPTURE_COMPLETE) 0).state = SCHEDJOB_BUSY :=
  ⟨(loop_job_never_self_completes initLoopState 0 rfl (by decide) (by decide) (by decide)
      (by decide) (by decide) rfl (by decide)).1,
   (loop_job_never_self_completes initLoopState 0 rfl (by decide) (by decide) (by decide)
      (by decide) (by decide) rfl (by decide)).2.1⟩

/-- C7: when job-termination handling is reached with a job state and
completion-condition combination that matches none of its branches (the
job's state is none of ERROR / ABORTED / IDLE and its completion condition
is none of the four known values), the scheduler does not crash: it logs a
bug-level debug message, resets the job's stage to IDLE (leaving its state
untouched), clears the active job and schedules a full scheduler
re-evaluation as the next iteration. -/
theorem findNextJob_fallback_no_crash (s : SchedState) (i : Nat)
    (hact : s.activeJob = some i) (hi : i < s.jobs.length)
    (hpause : s.schedulerState ≠ SCHEDULER_PAUSED)
    (hs1 : (getJob s i).state ≠ SCHEDJOB_ERROR)
    (hs2 : (getJob s i).state ≠ SCHEDJOB_ABORTED)
    (hs3 : (getJob s i).state ≠ SCHEDJOB_IDLE)
    (hc1 : (getJob s i).completionCondition ≠ FINISH_SEQUENCE)
    (hc2 : (getJob s i).completionCondition ≠ FINISH_REPEAT)
    (hc3 : (getJob s i).completionCondition ≠ FINISH_LOOP)
    (hc4 : (getJob s i).completionCondition ≠ FINISH_AT) :
    (findNextJob s).activeJob = none ∧
    (findNextJob s).timerState = RUN_SCHEDULER ∧
    (getJob (findNextJob s) i).stage = SCHEDSTAGE_IDLE ∧
    (getJob (findNextJob s) i).state = (getJob s i).state ∧
    Command.debugLog "BUGBUG! Job timer elapsed, but no action to be taken." ∈
      (findNextJob s).commands := by
  obtain ⟨jobs, act, schedSt, tSt, tInt, iSet, tArm, afc, gfc, ffc, cfc, mfa, cb, afC,
    rjp, fab, dr, ri, re, ed, up, now, sl, gs, gsj, ps, cos, cmds⟩ := s
  simp only [SchedState.activeJob] at hact
  subst hact
  simp only at hs1 hs2 hs3 hc1 hc2 hc3 hc4 hpause hi ⊢
  simp_all [findNextJob, findNextJobFallback, updateJobStage, setupNextIteration,
    setupNextIterationMs, setJob, emit, getJob, getD_set_self,
    SCHEDJOB_ERROR, SCHEDJOB_ABORTED, SCHEDJOB_IDLE, SCHEDULER_PAUSED,
    FINISH_SEQUENCE, FINISH_REPEAT, FINISH_LOOP, FINISH_AT,
    SCHEDSTAGE_IDLE, RUN_SCHEDULER]

/-- Witness for C7 at a concrete job whose completion condition is the
out-of-range enum value 42. -/
theorem findNextJob_fallback_no_crash_witness :
    (findNextJob fallbackState).activeJob = none ∧
    (findNextJob fallbackState).timerState = RUN_SCHEDULER ∧
    (getJob (findNextJob fallbackState) 0).stage = SCHEDSTAGE_IDLE ∧
    (getJob (findNextJob fallbackState) 0).state = (getJob fallbackState 0).state ∧
    Command.debugLog "BUGBUG! Job timer elapsed, but no action to be taken." ∈
      (findNextJob fallbackState).commands :=
  findNextJob_fallback_no_crash fallbackState 0 rfl (by decide) (by decide) (by decide)
    (by decide) (by decide) (by decide) (by decide) (by decide) (by decide)

/-- C4 (counterexample to the claim as stated): completing a
SEQUENCE_COMPLETE job under remember-job-progress does NOT always leave the
active job itself IDLE: when its captures cannot be recounted
(`canCountCaptures` false, remote storage), the termination pass re-marks
the active job COMPLETE after the IDLE reset, so it ends the pass COMPLETE,
not IDLE — here at a concrete queue of two duplicate jobs. -/
theorem sequence_remember_idle_claim_cex :
    (getJob (seqPairState false) 0).completionCondition = FINISH_SEQUENCE ∧
    (seqPairState false).rememberJobProgress = true ∧
    isDuplicateOf (getJob (seqPairState false) 1) (getJob (seqPairState false) 0) = true ∧
    (getJob (findNextJob (seqPairState false)) 0).state ≠ SCHEDJOB_IDLE ∧
    (getJob (findNextJob (seqPairState false)) 0).state = SCHEDJOB_COMPLETE := by
  decide

/-- C4 (amended): if the active job's completion condition is
SEQUENCE_COMPLETE and remember-job-progress is enabled, then on termination
every duplicate of the active job in the job list is set to IDLE for
re-evaluation within the same pass; the active job itself is also set to
IDLE when its captures can be recounted later, and is finalized COMPLETE
instead when they cannot (remote storage). -/
theorem sequence_remember_duplicates_idle_amended (s : SchedState) (i : Nat)
    (hact : s.activeJob = some i) (hi : i < s.jobs.length)
    (hpause : s.schedulerState ≠ SCHEDULER_PAUSED)
    (hstate : (getJob s i).state = SCHEDJOB_COMPLETE)
    (hcond : (getJob s i).completionCondition = FINISH_SEQUENCE)
    (hrem : s.rememberJobProgress = true) :
    (∀ k, k < s.jobs.length → k ≠ i →
        isDuplicateOf (getJob s k) (getJob s i) = true →
        (getJob (findNextJob s) k).state = SCHEDJOB_IDLE) ∧
    ((getJob s i).canCount = true → (getJob (findNextJob s) i).state = SCHEDJOB_IDLE) ∧
    ((getJob s i).canCount = false → (getJob (findNextJob s) i).state = SCHEDJOB_COMPLETE) := by
  obtain ⟨jobs, act, schedSt, tSt, tInt, iSet, tArm, afc, gfc, ffc, cfc, mfa, cb, afC,
    rjp, fab, dr, ri, re, ed, up, now, sl, gs, gsj, ps, cos, cmds⟩ := s
  simp only [SchedState.activeJob] at hact
  subst hact
  simp only at hstate hcond hrem hpause hi ⊢
  refine ⟨?_, ?_, ?_⟩
  · intro k hk hki hdup
    have hik : i ≠ k := Ne.symm hki
    by_cases hcc : (jobs.getD i default).canCount = true
    all_goals
    simp_all [findNextJob, findNextJobSequence, updateJobStage, setupNextIteration,
      setupNextIterationMs, setJobState, setJob, emit, getJob,
      getD_markDupsIdle, getD_set_ne, getD_set_self, markDupsIdle_length,
      getElem_markDupsIdle, List.getElem_set_self, List.getElem_set_ne,
      SCHEDJOB_COMPLETE, SCHEDJOB_ERROR, SCHEDJOB_ABORTED, SCHEDJOB_IDLE,
      SCHEDULER_PAUSED, FINISH_SEQUENCE, SCHEDSTAGE_IDLE, RUN_SCHEDULER]
  · intro hcc
    simp_all [findNextJob, findNextJobSequence, updateJobStage, setupNextIteration,
      setupNextIterationMs, setJobState, setJob, emit, getJob,
      getD_markDupsIdle, getD_set_ne, getD_set_self, markDupsIdle_length,
      getElem_markDupsIdle, List.getElem_set_self, List.getElem_set_ne,
      SCHEDJOB_COMPLETE, SCHEDJOB_ERROR, SCHEDJOB_ABORTED, SCHEDJOB_IDLE,
      SCHEDULER_PAUSED, FINISH_SEQUENCE, SCHEDSTAGE_IDLE, RUN_SCHEDULER]
  · intro hcc
    simp_all [findNextJob, findNextJobSequence, updateJobStage, setupNextIteration,
      setupNextIterationMs, setJobState, setJob, emit, getJob,
      getD_markDupsIdle, getD_set_ne, getD_set_self, markDupsIdle_length,
      getElem_markDupsIdle, List.getElem_set_self, List.getElem_set_ne,
      SCHEDJOB_COMPLETE, SCHEDJOB_ERROR, SCHEDJOB_ABORTED, SCHEDJOB_IDLE,
      SCHEDULER_PAUSED, FINISH_SEQUENCE, SCHEDSTAGE_IDLE, RUN_SCHEDULER]

/-- Witness for the amended C4 at a concrete two-job queue whose captures
are client-stored: both the duplicate and the active job end the pass
IDLE. -/
theorem sequence_remember_duplicates_idle_amended_witness :
    (getJob (findNextJob (seqPairState true)) 1).state = SCHEDJOB_IDLE ∧
    (getJob (findNextJob (seqPairState true)) 0).state = SCHEDJOB_IDLE :=
  ⟨(sequence_remember_duplicates_idle_amended (seqPairState true) 0 rfl (by decide)
      (by decide) (by decide) (by decide) rfl).1 1 (by decide) (by decide) (by decide),
   (sequence_remember_duplicates_idle_amended (seqPairState true) 0 rfl (by decide)
      (by decide) (by decide) (by decide) rfl).2.1 (by decide)⟩

/-- C5 (counterexample to the claim as stated): with every job ABORTED or
ERROR and the "don't restart" strategy, `selectActiveJob` leaves the active
job null but logs "No jobs scheduled." — the "No jobs left in the scheduler
queue after evaluating." message is not emitted (it is only emitted when no
job is ABORTED at all). -/
theorem all_aborted_dont_restart_message_cex :
    (∀ j ∈ (abortedPairState true).jobs,
      j.state = SCHEDJOB_ABORTED ∨ j.state = SCHEDJOB_ERROR) ∧
    (abortedPairState true).errorHandlingDontRestart = true ∧
    (selectActiveJob (abortedPairState true)).activeJob = none ∧
    Command.appendLog "No jobs scheduled." ∈
      (selectActiveJob (abortedPairState true)).commands ∧
    Command.appendLog "No jobs left in the scheduler queue after evaluating." ∉
      (selectActiveJob (abortedPairState true)).commands := by
  decide

/-- C5 (amended): when every job of a non-empty list is ABORTED or ERROR:
if the strategy permits restart and at least one job is ABORTED, every
ABORTED job is set back to EVALUATION and no selection is made (the active
job is untouched); if no job is ABORTED (all errored), the queue is
declared exhausted ("No jobs left in the scheduler queue after
evaluating.") and the active job is cleared; under "don't restart" with an
ABORTED job present (so that the greedy scheduler scheduled nothing), the
active job is cleared and "No jobs scheduled." is logged. -/
theorem all_jobs_terminal_selection_amended (s : SchedState)
    (hne : s.jobs ≠ [])
    (hall : ∀ j ∈ s.jobs, j.state = SCHEDJOB_ABORTED ∨ j.state = SCHEDJOB_ERROR) :
    (s.errorHandlingDontRestart = false →
      (∃ j ∈ s.jobs, j.state = SCHEDJOB_ABORTED) →
      (selectActiveJob s).activeJob = s.activeJob ∧
      (selectActiveJob s).jobs = s.jobs.map (fun j =>
        if j.state == SCHEDJOB_ABORTED then { j with state := SCHEDJOB_EVALUATION } else j)) ∧
    ((∀ j ∈ s.jobs, j.state ≠ SCHEDJOB_ABORTED) →
      (selectActiveJob s).activeJob = none ∧
      Command.appendLog "No jobs left in the scheduler queue after evaluating." ∈
        (selectActiveJob s).commands) ∧
    (s.errorHandlingDontRestart = true →
      (∃ j ∈ s.jobs, j.state = SCHEDJOB_ABORTED) →
      s.greedyScheduledJob = none →
      (selectActiveJob s).activeJob = none ∧
      Command.appendLog "No jobs scheduled." ∈ (selectActiveJob s).commands) := by
  refine ⟨?_, ?_, ?_⟩
  · intro hdr hex
    obtain ⟨j0, hj0m, hj0⟩ := hex
    have hc1 : (s.jobs.isEmpty ||
        s.jobs.all (fun j => j.state != SCHEDJOB_SCHEDULED && j.state != SCHEDJOB_ABORTED)) =
          false := by
      simp [List.isEmpty_iff, hne, List.all_eq_true]
      exact ⟨j0, hj0m, fun _ => hj0⟩
    have hc2 : s.jobs.all
        (fun j => decide (SCHEDJOB_ERROR ≤ j.state) || j.state == SCHEDJOB_ABORTED) = true := by
      simp [List.all_eq_true]
      intro j hj
      rcases hall j hj with h | h <;> simp [h, SCHEDJOB_ABORTED, SCHEDJOB_ERROR]
    simp [selectActiveJob, hc1, hc2, hdr, emit]
  · intro hnoab
    have hc1 : (s.jobs.isEmpty ||
        s.jobs.all (fun j => j.state != SCHEDJOB_SCHEDULED && j.state != SCHEDJOB_ABORTED)) =
          true := by
      simp [List.all_eq_true]
      refine Or.inr fun j hj => ?_
      rcases hall j hj with h | h
      · exact absurd h (hnoab j hj)
      · exact ⟨by simp [h, SCHEDJOB_ERROR, SCHEDJOB_SCHEDULED],
          by simp [h, SCHEDJOB_ERROR, SCHEDJOB_ABORTED]⟩
    simp [selectActiveJob, hc1, emit]
  · intro hdr hex hgreedy
    obtain ⟨j0, hj0m, hj0⟩ := hex
    have hc1 : (s.jobs.isEmpty ||
        s.jobs.all (fun j => j.state != SCHEDJOB_SCHEDULED && j.state != SCHEDJOB_ABORTED)) =
          false := by
      simp [List.isEmpty_iff, hne, List.all_eq_true]
      exact ⟨j0, hj0m, fun _ => hj0⟩
    simp [selectActiveJob, hc1, hdr, hgreedy, emit]

/-- Witness for the amended C5 at a concrete two-job queue (one ABORTED,
one ERROR) with restart permitted: the ABORTED job is requeued into
EVALUATION and no selection is made. -/
theorem all_jobs_terminal_selection_amended_witness :
    (selectActiveJob (abortedPairState false)).activeJob = (abortedPairState false).activeJob ∧
    (selectActiveJob (abortedPairState false)).jobs = (abortedPairState false).jobs.map (fun j =>
      if j.state == SCHEDJOB_ABORTED then { j with state := SCHEDJOB_EVALUATION } else j) :=
  (all_jobs_terminal_selection_amended (abortedPairState false) (by decide) (by decide)).1
    (by decide) ⟨abortedJob, by decide, by decide⟩

/-- C6: when the active job's stage is IDLE, the job needs light frames and
autofocus has not yet been completed (`executeJob` clears that flag before
a job starts), `getNextAction` starts the first enabled pipeline step in
the priority order TRACK, FOCUS, ALIGN, GUIDE, CAPTURE, skipping disabled
steps; when GUIDE is the first enabled step but guiding is already running
it starts capture directly instead. -/
theorem idle_stage_priority_order (s : SchedState) (i : Nat)
    (hact : s.activeJob = some i)
    (hstage : (getJob s i).stage = SCHEDSTAGE_IDLE)
    (hlight : (getJob s i).lightFramesRequired = true)
    (hauto : s.autofocusCompleted = false) :
    (hasStep (getJob s i) USE_TRACK = true →
      getNextAction s = emit s Command.startSlew) ∧
    (hasStep (getJob s i) USE_TRACK = false → hasStep (getJob s i) USE_FOCUS = true →
      getNextAction s = emit s Command.startFocusing) ∧
    (hasStep (getJob s i) USE_TRACK = false → hasStep (getJob s i) USE_FOCUS = false →
      hasStep (getJob s i) USE_ALIGN = true →
      getNextAction s = emit s Command.startAstrometry) ∧
    (hasStep (getJob s i) USE_TRACK = false → hasStep (getJob s i) USE_FOCUS = false →
      hasStep (getJob s i) USE_ALIGN = false → hasStep (getJob s i) USE_GUIDE = true →
      s.guidingStatus = GUIDE_GUIDING →
      getNextAction s =
        emit (emit s (Command.appendLog "Guiding already running, directly start capturing."))
          (Command.startCapture false)) ∧
    (hasStep (getJob s i) USE_TRACK = false → hasStep (getJob s i) USE_FOCUS = false →
      hasStep (getJob s i) USE_ALIGN = false → hasStep (getJob s i) USE_GUIDE = true →
      s.guidingStatus ≠ GUIDE_GUIDING →
      getNextAction s = emit s (Command.startGuiding false)) ∧
    (hasStep (getJob s i) USE_TRACK = false → hasStep (getJob s i) USE_FOCUS = false →
      hasStep (getJob s i) USE_ALIGN = false → hasStep (getJob s i) USE_GUIDE = false →
      getNextAction s = emit s (Command.startCapture false)) := by
  refine ⟨?_, ?_, ?_, ?_, ?_, ?_⟩
  · intro hT
    simp [getNextAction, hact, hstage, hlight, hT]
  · intro hT hF
    simp [getNextAction, hact, hstage, hlight, hauto, hT, hF]
  · intro hT hF hA
    simp [getNextAction, hact, hstage, hlight, hauto, hT, hF, hA]
  · intro hT hF hA hG hguide
    simp [getNextAction, hact, hstage, hlight, hauto, hT, hF, hA, hG, hguide]
  · intro hT hF hA hG hguide
    simp [getNextAction, hact, hstage, hlight, hauto, hT, hF, hA, hG,
      beq_eq_false_iff_ne, hguide]
  · intro hT hF hA hG
    simp [getNextAction, hact, hstage, hlight, hauto, hT, hF, hA, hG]

/-- Witness for C6 at a concrete job whose only enabled step is GUIDE while
guiding is already active: capture is started directly. -/
theorem idle_stage_priority_order_witness :
    getNextAction guideSkipState =
      emit (emit guideSkipState
          (Command.appendLog "Guiding already running, directly start capturing."))
        (Command.startCapture false) :=
  (idle_stage_priority_order guideSkipState 0 rfl (by decide) (by decide)
    (by decide)).2.2.2.1 (by decide) (by decide) (by decide) (by decide) (by decide)

/-- C8: whenever the iteration loop's current phase is RUN_NOTHING,
executing one tick returns a negative sleep interval (-1) and `iterate`
does not re-arm the iteration timer, for any phase handler — the loop stops
scheduling itself until its entry point is called externally. -/
theorem run_nothing_stops_loop (phaseHandler : Nat → SchedState → SchedState)
    (s : SchedState) (h : s.timerState = RUN_NOTHING) :
    (runSchedulerIteration phaseHandler s).2 = -1 ∧
    (runSchedulerIteration phaseHandler s).2 < 0 ∧
    (iterate phaseHandler s).timerArmed = false := by
  have h1 : (runSchedulerIteration phaseHandler s).2 = -1 := by
    simp [runSchedulerIteration, setTimerInterval, h]
  refine ⟨h1, by omega, ?_⟩
  simp [iterate, h1]

/-- Witness for C8 at a concrete state in the RUN_NOTHING phase with the
identity phase handler. -/
theorem run_nothing_stops_loop_witness :
    (runSchedulerIteration idHandler nothingState).2 = -1 ∧
    (runSchedulerIteration idHandler nothingState).2 < 0 ∧
    (iterate idHandler nothingState).timerArmed = false :=
  run_nothing_stops_loop idHandler nothingState (by decide)

/-- C9: every invocation of job-termination handling (with a job active and
the scheduler not paused, so that the handler actually runs) leaves all
four per-subsystem failure counters — align, guide, focus, capture — at
zero: they are reset at entry, before the job's fate is decided, and no
branch re-increments them, so the inactivity-timeout retry budget never
carries over from one job run to the next. -/
theorem findNextJob_resets_failure_counters (s : SchedState) (i : Nat)
    (hact : s.activeJob = some i)
    (hpause : s.schedulerState ≠ SCHEDULER_PAUSED) :
    (findNextJob s).alignFailureCount = 0 ∧ (findNextJob s).guideFailureCount = 0 ∧
    (findNextJob s).focusFailureCount = 0 ∧ (findNextJob s).captureFailureCount = 0 := by
  have key : failCounts (findNextJob s) = (0, 0, 0, 0) := by
    unfold findNextJob
    rw [if_neg (by simp [beq_iff_eq, hpause]), hact]
    dsimp only
    split_ifs <;>
      simp only [failCounts_findNextJobErrorAborted, failCounts_findNextJobIdle,
        failCounts_findNextJobSequence, failCounts_findNextJobRepeatLE1,
        failCounts_findNextJobLoopOrRepeat, failCounts_findNextJobAt,
        failCounts_findNextJobFallback] <;> rfl
  refine ⟨congrArg Prod.fst key, ?_, ?_, ?_⟩
  · exact congrArg Prod.fst (congrArg Prod.snd key)
  · exact congrArg Prod.fst (congrArg Prod.snd (congrArg Prod.snd key))
  · exact congrArg Prod.snd (congrArg Prod.snd (congrArg Prod.snd key))

/-- Witness for C9 at a concrete state with non-zero counters: after the
repeat job's termination handling all four counters read zero. -/
theorem findNextJob_resets_failure_counters_witness :
    (findNextJob dirtyCountersState).alignFailureCount = 0 ∧
    (findNextJob dirtyCountersState).guideFailureCount = 0 ∧
    (findNextJob dirtyCountersState).focusFailureCount = 0 ∧
    (findNextJob dirtyCountersState).captureFailureCount = 0 :=
  findNextJob_resets_failure_counters dirtyCountersState 0 rfl (by decide)

/-- C10: `Scheduler::start` first resets every job in the list to IDLE and
only then runs the first iteration of the main loop: the state handed to
`iterate` (`startPrepared`) has every job IDLE, for any job states left
over from a previous session and any phase handler, so ABORTED, ERROR or
COMPLETE states never carry into the new run. -/
theorem start_resets_jobs_idle (phaseHandler : Nat → SchedState → SchedState)
    (s : SchedState) :
    (∀ j ∈ (startPrepared s).jobs, j.state = SCHEDJOB_IDLE) ∧
    start phaseHandler s = iterate phaseHandler (startPrepared s) := by
  refine ⟨?_, rfl⟩
  intro j hj
  simp only [startPrepared, init, setupNextIterationMs, List.mem_map] at hj
  obtain ⟨j0, _, rfl⟩ := hj
  rfl

/-- Witness for C10 at a queue holding an ABORTED and an ERROR job: both
are IDLE in the state the first iteration runs on. -/
theorem start_resets_jobs_idle_witness :
    ∀ j ∈ (startPrepared (abortedPairState true)).jobs, j.state = SCHEDJOB_IDLE :=
  (start_resets_jobs_idle idHandler (abortedPairState true)).1
